import Mathlib

/-!
Shallow embedding of the Pulumi infrastructure-as-code core of the
react-example repository: the VPC builder (`createVpc`), the ECR repository
provisioner (`createEcrRepositories`), the ECS cluster/service builders
(`createEcsCluster`, `createEcsService` in its two source variants), the
configuration validator (`validateConfig`), the service factory
(`createService`) and the `ReactService.deploy` pipeline.

Deferred Pulumi values (`pulumi.Input<string>` / resource output attributes)
are modelled symbolically by `PValue`: a literal string, a named resource
attribute, or a two-part interpolation.  Resource creation is modelled as the
construction of a record describing the resource's arguments; the resulting
value graph is what the theorems quantify over.
-/

namespace ReactExample

/-- A Pulumi `Input<string>`: a literal, the deferred output attribute of a
named resource, or an interpolation `pulumi.interpolate` of two parts. -/
inductive PValue where
  | lit (s : String)
  | attr (resource : String) (field : String)
  | interp2 (a b : PValue)
deriving DecidableEq, Repr

/-- An IPv4 CIDR block: 32-bit base address and mask length. -/
structure Cidr where
  addr : Nat
  maskLen : Nat
deriving DecidableEq, Repr

/-- Number of addresses covered by a CIDR block. -/
def Cidr.size (c : Cidr) : Nat := 2 ^ (32 - c.maskLen)

/-- Split a character list into groups separated by `sep`. -/
def splitOnChar (sep : Char) : List Char → List (List Char)
  | [] => [[]]
  | c :: cs =>
    let r := splitOnChar sep cs
    if c = sep then [] :: r
    else match r with
      | [] => [[c]]
      | g :: gs => (c :: g) :: gs

/-- Interpret a nonempty all-digit character list as a decimal number. -/
def charsToNat? (cs : List Char) : Option Nat :=
  if cs ≠ [] ∧ cs.all Char.isDigit then
    some (cs.foldl (fun acc c => acc * 10 + (c.toNat - 48)) 0)
  else none

/-- Parse one dotted-quad octet (0..255). -/
def parseOctet (cs : List Char) : Option Nat :=
  match charsToNat? cs with
  | some n => if n ≤ 255 then some n else none
  | none => none

/-- Parse an `a.b.c.d/p` CIDR string. -/
def parseCidr (s : String) : Option Cidr :=
  match splitOnChar '/' s.toList with
  | [ip, p] =>
    match splitOnChar '.' ip with
    | [a, b, c, d] =>
      match parseOctet a, parseOctet b, parseOctet c, parseOctet d,
          charsToNat? p with
      | some a', some b', some c', some d', some p' =>
        if p' ≤ 32 then
          some ⟨((a' * 256 + b') * 256 + c') * 256 + d', p'⟩
        else none
      | _, _, _, _, _ => none
    | _ => none
  | _ => none

/-- `cidrContainsStr parent child` holds when both strings parse and the
child's address range lies inside the parent's. -/
def cidrContainsStr (parent child : String) : Bool :=
  match parseCidr parent, parseCidr child with
  | some p, some c => decide (p.addr ≤ c.addr ∧ c.addr + c.size ≤ p.addr + p.size)
  | _, _ => false

/-- `cidrDisjointStr a b` holds when both strings parse and the two address
ranges do not overlap. -/
def cidrDisjointStr (a b : String) : Bool :=
  match parseCidr a, parseCidr b with
  | some x, some y => decide (x.addr + x.size ≤ y.addr ∨ y.addr + y.size ≤ x.addr)
  | _, _ => false

/-- One security-group rule, as in the `ingress`/`egress` arrays of
`aws.ec2.SecurityGroup`: a protocol, a port range, and a source given either
as literal CIDR blocks or as references to other security groups. -/
structure SgRule where
  protocol : String
  fromPort : Nat
  toPort : Nat
  cidrBlocks : List String
  securityGroups : List PValue
deriving DecidableEq, Repr

/-- A security group resource (name, description and its rules). -/
structure SecurityGroup where
  name : String
  description : String
  ingress : List SgRule
  egress : List SgRule
deriving DecidableEq, Repr

/-- The deferred `id` attribute of a security group. -/
def SecurityGroup.id (sg : SecurityGroup) : PValue := .attr sg.name "id"

/-- A subnet resource as created in `createVpc`. -/
structure Subnet where
  name : String
  cidrBlock : String
  availabilityZone : Option String
  mapPublicIpOnLaunch : Bool
  typeTag : String
deriving DecidableEq, Repr

/-- The deferred `id` attribute of a subnet. -/
def Subnet.id (s : Subnet) : PValue := .attr s.name "id"

/-- The VPC resource itself. -/
structure Vpc where
  name : String
  cidrBlock : String
  enableDnsHostnames : Bool
  enableDnsSupport : Bool
deriving DecidableEq, Repr

/-- The deferred `id` attribute of the VPC. -/
def Vpc.id (v : Vpc) : PValue := .attr v.name "id"

/-- A route table with its single default route target. -/
structure RouteTable where
  name : String
  routeCidr : String
  routeTarget : PValue
deriving DecidableEq, Repr

/-- The (optional) arguments of `createVpc`. -/
structure VpcConfig where
  cidrBlock : Option String := none
  azCount : Option Nat := none
deriving DecidableEq, Repr

/-- Everything `createVpc` returns. -/
structure VpcResources where
  vpc : Vpc
  publicSubnets : List Subnet
  privateSubnets : List Subnet
  publicSecurityGroup : SecurityGroup
  privateSecurityGroup : SecurityGroup
  publicRouteTable : RouteTable
  privateRouteTable : RouteTable
  internetGatewayName : String
  eipName : String
  natGatewaySubnet : PValue
deriving DecidableEq, Repr

/-- The CIDR string of the i-th public subnet, `10.0.{i}.0/24` in the source. -/
def publicSubnetCidr (i : Nat) : String := "10.0." ++ toString i ++ ".0/24"

/-- The CIDR string of the i-th private subnet, `10.0.{100+i}.0/24`. -/
def privateSubnetCidr (i : Nat) : String := "10.0." ++ toString (100 + i) ++ ".0/24"

/-- The i-th public subnet created in the `createVpc` loop: hard-coded
`10.0.{i}.0/24`, availability zone `azs.names[i]` (absent when out of range,
mirroring the undefined index). -/
def pubSubnetAt (azNames : List String) (i : Nat) : Subnet :=
  { name := "public-subnet-" ++ toString i
    cidrBlock := publicSubnetCidr i
    availabilityZone := azNames.get? i
    mapPublicIpOnLaunch := true
    typeTag := "Public" }

/-- The i-th private subnet created in the `createVpc` loop. -/
def priSubnetAt (azNames : List String) (i : Nat) : Subnet :=
  { name := "private-subnet-" ++ toString i
    cidrBlock := privateSubnetCidr i
    availabilityZone := azNames.get? i
    mapPublicIpOnLaunch := false
    typeTag := "Private" }

/-- Embedding of `createVpc` (src/iac/src/cloud/aws/vpc.ts).  `azNames` is
the list of availability-zone names the environment reports as available
(the result of `aws.getAvailabilityZones({state:"available"})`).  The
JavaScript defaults `config.cidrBlock || "10.0.0.0/16"` and
`config.azCount || 2` treat the empty string and 0 as absent. -/
def createVpc (config : VpcConfig) (azNames : List String) : VpcResources :=
  let cidrBlock := match config.cidrBlock with
    | some s => if s = "" then "10.0.0.0/16" else s
    | none => "10.0.0.0/16"
  let azCount := match config.azCount with
    | some n => if n = 0 then 2 else n
    | none => 2
  let vpc : Vpc := { name := "main-vpc", cidrBlock := cidrBlock,
                     enableDnsHostnames := true, enableDnsSupport := true }
  let publicSubnets := (List.range azCount).map (pubSubnetAt azNames)
  let privateSubnets := (List.range azCount).map (priSubnetAt azNames)
  let publicSecurityGroup : SecurityGroup :=
    { name := "public-sg"
      description := "Security group for public resources (HAProxy)"
      ingress :=
        [ { protocol := "tcp", fromPort := 80, toPort := 80,
            cidrBlocks := ["0.0.0.0/0"], securityGroups := [] },
          { protocol := "tcp", fromPort := 443, toPort := 443,
            cidrBlocks := ["0.0.0.0/0"], securityGroups := [] } ]
      egress :=
        [ { protocol := "-1", fromPort := 0, toPort := 0,
            cidrBlocks := ["0.0.0.0/0"], securityGroups := [] } ] }
  let privateSecurityGroup : SecurityGroup :=
    { name := "private-sg"
      description := "Security group for private resources (Nginx)"
      ingress :=
        [ { protocol := "tcp", fromPort := 80, toPort := 80,
            cidrBlocks := [], securityGroups := [publicSecurityGroup.id] },
          { protocol := "tcp", fromPort := 443, toPort := 443,
            cidrBlocks := [], securityGroups := [publicSecurityGroup.id] } ]
      egress :=
        [ { protocol := "-1", fromPort := 0, toPort := 0,
            cidrBlocks := ["0.0.0.0/0"], securityGroups := [] } ] }
  { vpc := vpc
    publicSubnets := publicSubnets
    privateSubnets := privateSubnets
    publicSecurityGroup := publicSecurityGroup
    privateSecurityGroup := privateSecurityGroup
    publicRouteTable := { name := "public-rt", routeCidr := "0.0.0.0/0",
                          routeTarget := .attr "main-igw" "id" }
    privateRouteTable := { name := "private-rt", routeCidr := "0.0.0.0/0",
                           routeTarget := .attr "main-nat" "id" }
    internetGatewayName := "main-igw"
    eipName := "nat-eip"
    natGatewaySubnet := match publicSubnets.head? with
      | some s => s.id
      | none => .attr "undefined" "id" }

/-- Arguments of one ECR repository in `createEcrRepositories`. -/
structure EcrRepoConfig where
  imageName : String
  forceDelete : Option Bool := none
deriving DecidableEq, Repr

/-- An ECR repository resource: scan-on-push and mutable tags are fixed. -/
structure EcrRepository where
  name : String
  scanOnPush : Bool
  imageTagMutability : String
  forceDelete : Bool
deriving DecidableEq, Repr

/-- The deferred `repositoryUrl` attribute of an ECR repository. -/
def EcrRepository.repositoryUrl (r : EcrRepository) : PValue :=
  .attr r.name "repositoryUrl"

/-- The pair of repositories `createEcrRepositories` returns. -/
structure EcrResources where
  haproxyRepo : EcrRepository
  nginxRepo : EcrRepository
deriving DecidableEq, Repr

/-- One `new aws.ecr.Repository(imageName, {...})` call: the logical image
name is the resource identity; `forceDelete || false`. -/
def mkEcrRepository (cfg : EcrRepoConfig) : EcrRepository :=
  { name := cfg.imageName
    scanOnPush := true
    imageTagMutability := "MUTABLE"
    forceDelete := cfg.forceDelete.getD false }

/-- Embedding of `createEcrRepositories` (src/iac/src/cloud/aws/ecr.ts). -/
def createEcrRepositories (haproxy nginx : Option EcrRepoConfig) : EcrResources :=
  let haproxyConfig := haproxy.getD { imageName := "haproxy" }
  let nginxConfig := nginx.getD { imageName := "nginx" }
  { haproxyRepo := mkEcrRepository haproxyConfig
    nginxRepo := mkEcrRepository nginxConfig }

/-- The ECS cluster resource: container insights are always enabled. -/
structure EcsCluster where
  clusterName : String
  containerInsights : String
deriving DecidableEq, Repr

/-- The deferred `name` attribute of the cluster. -/
def EcsCluster.nameOut (c : EcsCluster) : PValue := .attr c.clusterName "name"

/-- The deferred `arn` attribute of the cluster. -/
def EcsCluster.arn (c : EcsCluster) : PValue := .attr c.clusterName "arn"

/-- Embedding of `createEcsCluster`: `config.name || "react-app-cluster"`. -/
def createEcsCluster (name : Option String) : EcsCluster :=
  { clusterName := match name with
      | some s => if s = "" then "react-app-cluster" else s
      | none => "react-app-cluster"
    containerInsights := "enabled" }

/-- One default capacity-provider strategy entry. -/
structure CapacityProviderStrategy where
  capacityProvider : String
  weight : Nat
  base : Nat
deriving DecidableEq, Repr

/-- The `aws.ecs.ClusterCapacityProviders` resource. -/
structure ClusterCapacityProviders where
  clusterName : PValue
  capacityProviders : List String
  defaultCapacityProviderStrategies : List CapacityProviderStrategy
deriving DecidableEq, Repr

/-- Embedding of `createEcsClusterCapacityProviders`. -/
def createEcsClusterCapacityProviders
    (cluster : EcsCluster) : ClusterCapacityProviders :=
  { clusterName := cluster.nameOut
    capacityProviders := ["FARGATE", "FARGATE_SPOT"]
    defaultCapacityProviderStrategies :=
      [ { capacityProvider := "FARGATE", weight := 100, base := 1 } ] }

/-- The service-discovery namespace resource created by
`createServiceDiscoveryNamespace` in ecs.ts.  Present in the source, but
never invoked by `ReactService.deploy`. -/
structure PrivateDnsNamespace where
  resourceName : String
  name : String
  vpc : PValue
  description : String
deriving DecidableEq, Repr

/-- Embedding of `createServiceDiscoveryNamespace`. -/
def createServiceDiscoveryNamespace (vpcId : PValue) : PrivateDnsNamespace :=
  { resourceName := "react-app-namespace"
    name := "react-app.local"
    vpc := vpcId
    description := "Service discovery namespace for React app services" }

/-- A CloudWatch log group with its retention. -/
structure LogGroup where
  name : String
  retentionInDays : Nat
deriving DecidableEq, Repr

/-- The deferred `name` attribute of a log group. -/
def LogGroup.nameOut (g : LogGroup) : PValue := .attr g.name "name"

/-- Arguments of `createEcsService` (both source variants; the earlier
variant's interface simply lacks `additionalPorts`, which it never reads). -/
structure EcsServiceConfig where
  clusterName : PValue
  clusterArn : PValue
  serviceName : String
  imageUri : PValue
  containerPort : Nat
  additionalPorts : Option (List Nat) := none
  containerMemory : Nat
  containerCpu : Nat
  desiredCount : Option Nat := none
  subnets : List PValue
  securityGroups : List PValue
  assignPublicIp : Option Bool := none
  enableLogging : Option Bool := none
  cloudwatchLogGroup : Option LogGroup := none
  serviceRegistryArn : Option PValue := none
deriving DecidableEq, Repr

/-- The log group both variants create when logging is enabled:
`if (config.enableLogging !== false)` then the supplied group or a fresh
`/ecs/{serviceName}` group with 7-day retention; otherwise none. -/
def logGroupOf (config : EcsServiceConfig) : Option LogGroup :=
  if config.enableLogging ≠ some false then
    some (config.cloudwatchLogGroup.getD
      { name := "/ecs/" ++ config.serviceName, retentionInDays := 7 })
  else none

/-- The health-check port selection of the later `createEcsService` variant:
`config.additionalPorts?.includes(80) ? 80 : config.containerPort`. -/
def selectedHealthCheckPort (config : EcsServiceConfig) : Nat :=
  match config.additionalPorts with
  | some ps => if ps.contains 80 then 80 else config.containerPort
  | none => config.containerPort

/-- One container port mapping. -/
structure PortMapping where
  containerPort : Nat
  hostPort : Nat
  protocol : String
deriving DecidableEq, Repr

/-- The port mappings of the later variant: the primary port followed by any
additional ports. -/
def portMappingsOf (config : EcsServiceConfig) : List PortMapping :=
  { containerPort := config.containerPort, hostPort := config.containerPort,
    protocol := "tcp" }
    :: (config.additionalPorts.getD []).map
      (fun p => { containerPort := p, hostPort := p, protocol := "tcp" })

/-- The command-based container health check. -/
structure HealthCheckSpec where
  command : List String
  interval : Nat
  timeout : Nat
  retries : Nat
  startPeriod : Nat
deriving DecidableEq, Repr

/-- An `awslogs` log configuration block as emitted by the later variant. -/
structure LogConfiguration where
  logDriver : String
  awslogsGroup : PValue
  awslogsRegion : String
  awslogsStream : String
deriving DecidableEq, Repr

/-- A container definition of the later `createEcsService` variant: the
`logConfiguration` key is present only when a log group exists. -/
structure ContainerDefV2 where
  name : String
  image : PValue
  portMappings : List PortMapping
  essential : Bool
  healthCheck : HealthCheckSpec
  logConfiguration : Option LogConfiguration
deriving DecidableEq, Repr

/-- The log configuration of the earlier `createEcsService` variant.  Its
interpolated JSON emits an `awslogs` block when a log group exists and the
literal fragment `"logDriver": "awsfirelens"` otherwise. -/
inductive LogConfigV1 where
  | awslogs (group : PValue) (region : String)
  | firelens
deriving DecidableEq, Repr

/-- A container definition of the earlier variant: single port mapping and an
always-present log driver. -/
structure ContainerDefV1 where
  name : String
  image : PValue
  portMappings : List PortMapping
  essential : Bool
  logConfiguration : LogConfigV1
  healthCheck : HealthCheckSpec
deriving DecidableEq, Repr

/-- An ECS task definition (container definitions of type `α` cover the two
source variants). -/
structure TaskDefinitionOf (α : Type) where
  name : String
  family : String
  networkMode : String
  requiresCompatibilities : List String
  cpu : String
  memory : String
  executionRole : String
  taskRole : String
  containerDefs : List α
deriving DecidableEq, Repr

/-- The ECS service resource. -/
structure EcsServiceRes where
  name : String
  cluster : PValue
  taskDefinitionArn : PValue
  desiredCount : Nat
  launchType : String
  subnets : List PValue
  securityGroups : List PValue
  assignPublicIp : Bool
  serviceRegistryArn : Option PValue
deriving DecidableEq, Repr

/-- The deferred `name` attribute of the service. -/
def EcsServiceRes.nameOut (s : EcsServiceRes) : PValue := .attr s.name "name"

/-- The deferred `id` attribute of the service. -/
def EcsServiceRes.idOut (s : EcsServiceRes) : PValue := .attr s.name "id"

/-- Everything the later `createEcsService` variant creates. -/
structure EcsServiceResult where
  taskRoleName : String
  taskExecutionRoleName : String
  logGroup : Option LogGroup
  taskDefinition : TaskDefinitionOf ContainerDefV2
  service : EcsServiceRes
deriving DecidableEq, Repr

/-- Everything the earlier `createEcsService` variant creates. -/
structure EcsServiceResultV1 where
  taskRoleName : String
  taskExecutionRoleName : String
  logGroup : Option LogGroup
  taskDefinition : TaskDefinitionOf ContainerDefV1
  service : EcsServiceRes
deriving DecidableEq, Repr

/-- The mutable-service half shared by both variants: `desiredCount || 1`
and `assignPublicIp || false` follow JavaScript truthiness. -/
def mkEcsServiceRes (config : EcsServiceConfig) : EcsServiceRes :=
  { name := config.serviceName
    cluster := config.clusterArn
    taskDefinitionArn := .attr (config.serviceName ++ "-task") "arn"
    desiredCount := match config.desiredCount with
      | some n => if n = 0 then 1 else n
      | none => 1
    launchType := "FARGATE"
    subnets := config.subnets
    securityGroups := config.securityGroups
    assignPublicIp := config.assignPublicIp.getD false
    serviceRegistryArn := config.serviceRegistryArn }

/-- Embedding of the later `createEcsService` variant in ecs.ts (the one with
`additionalPorts`, the wget-based health check and the conditional
`logConfiguration`).  `region` stands for the ambient `aws.config.region`. -/
def createEcsService (region : String) (config : EcsServiceConfig) :
    EcsServiceResult :=
  let logGroup := logGroupOf config
  let healthCheckPort := selectedHealthCheckPort config
  { taskRoleName := config.serviceName ++ "-task-role"
    taskExecutionRoleName := config.serviceName ++ "-task-execution-role"
    logGroup := logGroup
    taskDefinition :=
      { name := config.serviceName ++ "-task"
        family := config.serviceName
        networkMode := "awsvpc"
        requiresCompatibilities := ["FARGATE"]
        cpu := toString config.containerCpu
        memory := toString config.containerMemory
        executionRole := config.serviceName ++ "-task-execution-role"
        taskRole := config.serviceName ++ "-task-role"
        containerDefs :=
          [ { name := config.serviceName
              image := config.imageUri
              portMappings := portMappingsOf config
              essential := true
              healthCheck :=
                { command :=
                    [ "CMD-SHELL",
                      "wget -qO- http://127.0.0.1:"
                        ++ toString healthCheckPort ++ "/health || exit 1" ]
                  interval := 30, timeout := 10, retries := 5,
                  startPeriod := 120 }
              logConfiguration := logGroup.map (fun g =>
                { logDriver := "awslogs"
                  awslogsGroup := g.nameOut
                  awslogsRegion := region
                  awslogsStream := "ecs" }) } ] }
    service := mkEcsServiceRes config }

/-- Embedding of the earlier `createEcsService` variant in ecs.ts (single
port, curl-based health check, and a `logConfiguration` JSON field that falls
back to `"logDriver": "awsfirelens"` when logging is disabled). -/
def createEcsServiceLegacy (region : String) (config : EcsServiceConfig) :
    EcsServiceResultV1 :=
  let logGroup := logGroupOf config
  { taskRoleName := config.serviceName ++ "-task-role"
    taskExecutionRoleName := config.serviceName ++ "-task-execution-role"
    logGroup := logGroup
    taskDefinition :=
      { name := config.serviceName ++ "-task"
        family := config.serviceName
        networkMode := "awsvpc"
        requiresCompatibilities := ["FARGATE"]
        cpu := toString config.containerCpu
        memory := toString config.containerMemory
        executionRole := config.serviceName ++ "-task-execution-role"
        taskRole := config.serviceName ++ "-task-role"
        containerDefs :=
          [ { name := config.serviceName
              image := config.imageUri
              portMappings :=
                [ { containerPort := config.containerPort,
                    hostPort := config.containerPort, protocol := "tcp" } ]
              essential := true
              logConfiguration := match logGroup with
                | some g => .awslogs g.nameOut region
                | none => .firelens
              healthCheck :=
                { command :=
                    [ "CMD-SHELL",
                      "curl -f http://localhost:"
                        ++ toString config.containerPort ++ "/ || exit 1" ]
                  interval := 30, timeout := 5, retries := 3,
                  startPeriod := 60 } } ] }
    service := mkEcsServiceRes config }

/-- The Pulumi stack configuration, `pulumiConfig.get` as a partial map. -/
abbrev PulumiConfig := String → Option String

/-- The image-reference resolution in `ReactService.deploy`:
`cfg.get(key) ? cfg.get(key)! : pulumi.interpolate${repoUrl}:latest`.
The JavaScript truthiness test treats a configured empty string like an
absent override. -/
def resolveImageUri (override : Option String) (repositoryUrl : PValue) :
    PValue :=
  match override with
  | some s =>
    if s = "" then .interp2 repositoryUrl (.lit ":latest") else .lit s
  | none => .interp2 repositoryUrl (.lit ":latest")

/-- The full value graph one `ReactService.deploy()` call builds, together
with the returned output bindings. -/
structure DeployResult where
  vpcResources : VpcResources
  ecrResources : EcrResources
  ecsCluster : EcsCluster
  capacityProviders : ClusterCapacityProviders
  haproxyService : EcsServiceResult
  nginxService : EcsServiceResult
  outputs : List (String × PValue)
deriving DecidableEq, Repr

/-- Embedding of `ReactService.deploy` (src/iac/src/deployment/
react-service.ts).  `region` and `azNames` describe the target environment;
`pulumiConfig` is the stack configuration.  The read-only
`aws.ecs.getService` describe call after the two services is not bound to
anything and creates no resource, so it is not modelled. -/
def deploy (region : String) (azNames : List String)
    (pulumiConfig : PulumiConfig) : DeployResult :=
  let vpcResources :=
    createVpc { cidrBlock := some "10.0.0.0/16", azCount := some 2 } azNames
  let ecrResources :=
    createEcrRepositories (some { imageName := "react-app-haproxy" })
      (some { imageName := "react-app-nginx" })
  let ecsCluster := createEcsCluster (some "react-app-cluster")
  let capacityProviders := createEcsClusterCapacityProviders ecsCluster
  let haproxyImageUri :=
    resolveImageUri (pulumiConfig "haproxy-image-uri")
      ecrResources.haproxyRepo.repositoryUrl
  let haproxyService := createEcsService region
    { clusterName := ecsCluster.nameOut
      clusterArn := ecsCluster.arn
      serviceName := "haproxy-service"
      imageUri := haproxyImageUri
      containerPort := 80
      containerMemory := 512
      containerCpu := 256
      desiredCount := some 2
      subnets := vpcResources.publicSubnets.map Subnet.id
      securityGroups := [vpcResources.publicSecurityGroup.id]
      assignPublicIp := some true
      enableLogging := some true }
  let nginxImageUri :=
    resolveImageUri (pulumiConfig "nginx-image-uri")
      ecrResources.nginxRepo.repositoryUrl
  let nginxService := createEcsService region
    { clusterName := ecsCluster.nameOut
      clusterArn := ecsCluster.arn
      serviceName := "nginx-service"
      imageUri := nginxImageUri
      containerPort := 80
      containerMemory := 512
      containerCpu := 256
      desiredCount := some 2
      subnets := vpcResources.privateSubnets.map Subnet.id
      securityGroups := [vpcResources.privateSecurityGroup.id]
      assignPublicIp := some false
      enableLogging := some true }
  { vpcResources := vpcResources
    ecrResources := ecrResources
    ecsCluster := ecsCluster
    capacityProviders := capacityProviders
    haproxyService := haproxyService
    nginxService := nginxService
    outputs :=
      [ ("vpcId", vpcResources.vpc.id),
        ("clusterName", ecsCluster.nameOut),
        ("haproxyServiceName", haproxyService.service.nameOut),
        ("nginxServiceName", nginxService.service.nameOut),
        ("haproxyRepoUrl", ecrResources.haproxyRepo.repositoryUrl),
        ("nginxRepoUrl", ecrResources.nginxRepo.repositoryUrl),
        ("publicSecurityGroupId", vpcResources.publicSecurityGroup.id),
        ("privateSecurityGroupId", vpcResources.privateSecurityGroup.id),
        ("publicSubnets", .lit (toString vpcResources.publicSubnets.length)),
        ("privateSubnets",
          .lit (toString vpcResources.privateSubnets.length)) ] }

/-- Consume every leading decimal digit; return how many were consumed and
the rest of the input. -/
def splitDigits : List Char → Nat × List Char
  | [] => (0, [])
  | c :: cs =>
    if c.isDigit then
      let r := splitDigits cs
      (r.1 + 1, r.2)
    else (0, c :: cs)

/-- Match `\d{lo,hi}` at the head of the input (the following regex symbol is
never a digit, so greedy matching without backtracking is exact). -/
def chompDigits (lo hi : Nat) (cs : List Char) : Option (List Char) :=
  let r := splitDigits cs
  if lo ≤ r.1 ∧ r.1 ≤ hi then some r.2 else none

/-- Match one literal character at the head of the input. -/
def chompChar (c : Char) : List Char → Option (List Char)
  | x :: xs => if x = c then some xs else none
  | [] => none

/-- The anchored CIDR-syntax regex of `validateConfig`
(src/iac/src/config.ts): four groups of 1-3 digits separated by dots, a
slash, then 1-2 digits. -/
def isCidrFormat (s : String) : Bool :=
  match ((((((((chompDigits 1 3 s.toList).bind (chompChar '.')).bind
      (chompDigits 1 3)).bind (chompChar '.')).bind
      (chompDigits 1 3)).bind (chompChar '.')).bind
      (chompDigits 1 3)).bind (chompChar '/')).bind (chompDigits 1 2) with
  | some [] => true
  | _ => false

/-- The record `validateConfig` receives. -/
structure ValidateConfigInput where
  serviceName : String
  environmentName : String
  awsRegion : String
  vpcCidrBlock : String
  vpcAzCount : Int
deriving DecidableEq, Repr

/-- The error list `validateConfig` accumulates, in source order. -/
def collectValidationErrors (config : ValidateConfigInput) : List String :=
  (if config.serviceName.length = 0 then ["serviceName is required"] else [])
    ++ (if config.environmentName.length = 0 then
          ["environmentName is required"] else [])
    ++ (if isCidrFormat config.vpcCidrBlock then [] else
          [ "Invalid CIDR block: " ++ config.vpcCidrBlock
              ++ ". Expected format: x.x.x.x/xx" ])
    ++ (if config.vpcAzCount < 1 ∨ config.vpcAzCount > 4 then
          [ "Invalid AZ count: " ++ toString config.vpcAzCount
              ++ ". Must be between 1 and 4" ] else [])

/-- Embedding of `validateConfig`: all violations are joined into one thrown
error message. -/
def validateConfig (config : ValidateConfigInput) : Except String Unit :=
  let errors := collectValidationErrors config
  if errors.isEmpty then .ok ()
  else
    .error ("Configuration validation failed:\n"
      ++ String.intercalate "\n" (errors.map (fun e => "  - " ++ e)))

/-- The deployment kinds in the load-time registration table of the factory
(src/unnamed/part_006): only "react-service" is registered. -/
inductive ServiceKind where
  | reactService
deriving DecidableEq, Repr

/-- The registration table `registeredServices`. -/
def registeredServices (name : String) : Option ServiceKind :=
  if name = "react-service" then some ServiceKind.reactService else none

/-- Embedding of `createService`: an unregistered kind throws
`No service registered for stack {name}`. -/
def createService (name : String) : Except String ServiceKind :=
  match registeredServices name with
  | some k => .ok k
  | none => .error ("No service registered for stack " ++ name)

/-- The single capability a constructed service instance exposes. -/
def ServiceKind.deployOp :
    ServiceKind → (String → List String → PulumiConfig → DeployResult)
  | .reactService => deploy

/-- The example configuration of C2, with the keys under which
`loadDeploymentConfig` would read the corresponding values. -/
def exampleConfig : PulumiConfig := fun key =>
  if key = "serviceName" then some "svc"
  else if key = "environmentName" then some "dev"
  else if key = "vpc:cidrBlock" then some "10.0.0.0/16"
  else if key = "vpc:azCount" then some "2"
  else if key = "ecs:haproxy:cpu" then some "256"
  else if key = "ecs:haproxy:memory" then some "512"
  else if key = "ecs:haproxy:desiredCount" then some "1"
  else if key = "ecs:nginx:cpu" then some "256"
  else if key = "ecs:nginx:memory" then some "512"
  else if key = "ecs:nginx:desiredCount" then some "1"
  else none

/-- A service whose port set is {8443, 8080}: encrypted primary port 8443 and
plaintext additional port 8080. -/
def tieBreakExampleConfig : EcsServiceConfig :=
  { clusterName := .attr "react-app-cluster" "name"
    clusterArn := .attr "react-app-cluster" "arn"
    serviceName := "haproxy-service"
    imageUri := .lit "haproxy:latest"
    containerPort := 8443
    additionalPorts := some [8080]
    containerMemory := 512
    containerCpu := 256
    subnets := []
    securityGroups := [] }

/-- A service created with logging explicitly disabled. -/
def loggingDisabledConfig : EcsServiceConfig :=
  { clusterName := .attr "react-app-cluster" "name"
    clusterArn := .attr "react-app-cluster" "arn"
    serviceName := "nginx-service"
    imageUri := .lit "nginx:latest"
    containerPort := 80
    containerMemory := 512
    containerCpu := 256
    subnets := []
    securityGroups := []
    enableLogging := some false }

/-- `true` when every two distinct blocks of the list are disjoint. -/
def pairwiseDisjointCidrs : List String → Bool
  | [] => true
  | c :: cs => cs.all (fun d => cidrDisjointStr c d) && pairwiseDisjointCidrs cs

/-! Theorems.  Each claim C1..C10 of the specification is settled below;
counterexample theorems exhibit concrete inputs on which a claim, as
written, fails on the embedded code. -/

/-- C1: in the network topology produced by `createVpc`, every ingress rule
of the private security group names the public security group's identifier
as its source (via `securityGroups`), and no private-security-group ingress
rule carries a literal CIDR address range. -/
theorem c1_private_sg_ingress_trust_boundary
    (config : VpcConfig) (azNames : List String) (rule : SgRule)
    (h : rule ∈ (createVpc config azNames).privateSecurityGroup.ingress) :
    rule.securityGroups = [(createVpc config azNames).publicSecurityGroup.id]
      ∧ rule.cidrBlocks = [] := by
  replace h : rule ∈
      [ ({ protocol := "tcp", fromPort := 80, toPort := 80, cidrBlocks := [],
           securityGroups := [PValue.attr "public-sg" "id"] } : SgRule),
        { protocol := "tcp", fromPort := 443, toPort := 443, cidrBlocks := [],
          securityGroups := [PValue.attr "public-sg" "id"] } ] := h
  rcases List.mem_cons.mp h with rfl | h2
  · exact ⟨rfl, rfl⟩
  rcases List.mem_cons.mp h2 with rfl | h3
  · exact ⟨rfl, rfl⟩
  · cases h3

/-- C1 witness: the port-80 ingress rule of a concrete topology. -/
theorem c1_witness :
    ({ protocol := "tcp", fromPort := 80, toPort := 80, cidrBlocks := [],
       securityGroups := [PValue.attr "public-sg" "id"] } : SgRule) ∈
      (createVpc { cidrBlock := some "10.0.0.0/16", azCount := some 2 }
        ["us-east-1a", "us-east-1b"]).privateSecurityGroup.ingress
    ∧ (({ protocol := "tcp", fromPort := 80, toPort := 80, cidrBlocks := [],
          securityGroups := [PValue.attr "public-sg" "id"] } : SgRule).securityGroups
        = [(createVpc { cidrBlock := some "10.0.0.0/16", azCount := some 2 }
            ["us-east-1a", "us-east-1b"]).publicSecurityGroup.id]
      ∧ ({ protocol := "tcp", fromPort := 80, toPort := 80, cidrBlocks := [],
           securityGroups := [PValue.attr "public-sg" "id"] } : SgRule).cidrBlocks
        = []) :=
  ⟨by decide, c1_private_sg_ingress_trust_boundary _ _ _ (by decide)⟩

/-- C2 counterexample: on the example configuration, `deploy` returns exactly
the ten listed output bindings, and none of them is the discovery namespace's
identifier or a DNS name under the discovery namespace — `deploy` never
invokes `createServiceDiscoveryNamespace`. -/
theorem c2_counterexample :
    (deploy "us-east-1" ["us-east-1a", "us-east-1b"] exampleConfig).outputs =
      [ ("vpcId", PValue.attr "main-vpc" "id"),
        ("clusterName", PValue.attr "react-app-cluster" "name"),
        ("haproxyServiceName", PValue.attr "haproxy-service" "name"),
        ("nginxServiceName", PValue.attr "nginx-service" "name"),
        ("haproxyRepoUrl", PValue.attr "react-app-haproxy" "repositoryUrl"),
        ("nginxRepoUrl", PValue.attr "react-app-nginx" "repositoryUrl"),
        ("publicSecurityGroupId", PValue.attr "public-sg" "id"),
        ("privateSecurityGroupId", PValue.attr "private-sg" "id"),
        ("publicSubnets", PValue.lit "2"),
        ("privateSubnets", PValue.lit "2") ]
    ∧ ∀ kv ∈ (deploy "us-east-1" ["us-east-1a", "us-east-1b"]
        exampleConfig).outputs,
        kv.2 ≠ PValue.attr
          (createServiceDiscoveryNamespace (PValue.attr "main-vpc" "id")).resourceName "id"
        ∧ kv.2 ≠ PValue.lit ("nginx-service."
            ++ (createServiceDiscoveryNamespace (PValue.attr "main-vpc" "id")).name) :=
  ⟨rfl, by decide⟩

/-- C2 amended: on the example configuration `deploy` returns output bindings
holding the network identifier, the cluster identifier, one service
identifier per tier, one registry URL per tier, one security-group identifier
per tier, publicSubnets="2" and privateSubnets="2" — ten bindings in total,
with no discovery namespace identifier and no discovery DNS name among
them. -/
theorem c2_outputs :
    (deploy "us-east-1" ["us-east-1a", "us-east-1b"]
        exampleConfig).outputs.lookup "vpcId"
      = some (PValue.attr "main-vpc" "id")
    ∧ (deploy "us-east-1" ["us-east-1a", "us-east-1b"]
        exampleConfig).outputs.lookup "clusterName"
      = some (PValue.attr "react-app-cluster" "name")
    ∧ (deploy "us-east-1" ["us-east-1a", "us-east-1b"]
        exampleConfig).outputs.lookup "haproxyServiceName"
      = some (PValue.attr "haproxy-service" "name")
    ∧ (deploy "us-east-1" ["us-east-1a", "us-east-1b"]
        exampleConfig).outputs.lookup "nginxServiceName"
      = some (PValue.attr "nginx-service" "name")
    ∧ (deploy "us-east-1" ["us-east-1a", "us-east-1b"]
        exampleConfig).outputs.lookup "haproxyRepoUrl"
      = some (PValue.attr "react-app-haproxy" "repositoryUrl")
    ∧ (deploy "us-east-1" ["us-east-1a", "us-east-1b"]
        exampleConfig).outputs.lookup "nginxRepoUrl"
      = some (PValue.attr "react-app-nginx" "repositoryUrl")
    ∧ (deploy "us-east-1" ["us-east-1a", "us-east-1b"]
        exampleConfig).outputs.lookup "publicSecurityGroupId"
      = some (PValue.attr "public-sg" "id")
    ∧ (deploy "us-east-1" ["us-east-1a", "us-east-1b"]
        exampleConfig).outputs.lookup "privateSecurityGroupId"
      = some (PValue.attr "private-sg" "id")
    ∧ (deploy "us-east-1" ["us-east-1a", "us-east-1b"]
        exampleConfig).outputs.lookup "publicSubnets"
      = some (PValue.lit "2")
    ∧ (deploy "us-east-1" ["us-east-1a", "us-east-1b"]
        exampleConfig).outputs.lookup "privateSubnets"
      = some (PValue.lit "2")
    ∧ (deploy "us-east-1" ["us-east-1a", "us-east-1b"]
        exampleConfig).outputs.length = 10 :=
  ⟨rfl, rfl, rfl, rfl, rfl, rfl, rfl, rfl, rfl, rfl, rfl⟩

/-- C3 counterexample: with base block 192.168.0.0/16 the builder still emits
the hard-coded subnet 10.0.0.0/24, which is not contained in the VPC's CIDR
block. -/
theorem c3_counterexample :
    (createVpc { cidrBlock := some "192.168.0.0/16", azCount := some 1 }
      ["us-east-1a"]).publicSubnets.map Subnet.cidrBlock = ["10.0.0.0/24"]
    ∧ (createVpc { cidrBlock := some "192.168.0.0/16", azCount := some 1 }
        ["us-east-1a"]).vpc.cidrBlock = "192.168.0.0/16"
    ∧ cidrContainsStr "192.168.0.0/16" "10.0.0.0/24" = false :=
  ⟨rfl, rfl, by decide⟩

/-- C3 amended: for azCount ∈ {1,2,3,4} and the base block 10.0.0.0/16 (the
only one the deployment passes), `createVpc` yields exactly azCount public
and azCount private subnets, public subnet i at 10.0.i.0/24 and private
subnet i at 10.0.(100+i).0/24, all pairwise disjoint and contained in the
VPC's CIDR block; the containment fails for other base blocks because the
subnet addresses are hard-coded. -/
theorem c3_subnet_layout (n : Nat) (azNames : List String)
    (hn : n ∈ [1, 2, 3, 4]) :
    (createVpc { cidrBlock := some "10.0.0.0/16", azCount := some n }
        azNames).vpc.cidrBlock = "10.0.0.0/16"
    ∧ (createVpc { cidrBlock := some "10.0.0.0/16", azCount := some n }
        azNames).publicSubnets.length = n
    ∧ (createVpc { cidrBlock := some "10.0.0.0/16", azCount := some n }
        azNames).privateSubnets.length = n
    ∧ (createVpc { cidrBlock := some "10.0.0.0/16", azCount := some n }
        azNames).publicSubnets.map Subnet.cidrBlock
        = (List.range n).map publicSubnetCidr
    ∧ (createVpc { cidrBlock := some "10.0.0.0/16", azCount := some n }
        azNames).privateSubnets.map Subnet.cidrBlock
        = (List.range n).map privateSubnetCidr
    ∧ pairwiseDisjointCidrs
        ((List.range n).map publicSubnetCidr
          ++ (List.range n).map privateSubnetCidr) = true
    ∧ ((List.range n).map publicSubnetCidr
        ++ (List.range n).map privateSubnetCidr).all
        (fun c => cidrContainsStr "10.0.0.0/16" c) = true := by
  fin_cases hn <;> exact ⟨rfl, rfl, rfl, rfl, rfl, by decide, by decide⟩

/-- C3 witness at azCount 2. -/
theorem c3_witness :
    (2 ∈ [1, 2, 3, 4])
    ∧ ((createVpc { cidrBlock := some "10.0.0.0/16", azCount := some 2 }
          ["us-east-1a", "us-east-1b"]).vpc.cidrBlock = "10.0.0.0/16"
      ∧ (createVpc { cidrBlock := some "10.0.0.0/16", azCount := some 2 }
          ["us-east-1a", "us-east-1b"]).publicSubnets.length = 2
      ∧ (createVpc { cidrBlock := some "10.0.0.0/16", azCount := some 2 }
          ["us-east-1a", "us-east-1b"]).privateSubnets.length = 2
      ∧ (createVpc { cidrBlock := some "10.0.0.0/16", azCount := some 2 }
          ["us-east-1a", "us-east-1b"]).publicSubnets.map Subnet.cidrBlock
          = (List.range 2).map publicSubnetCidr
      ∧ (createVpc { cidrBlock := some "10.0.0.0/16", azCount := some 2 }
          ["us-east-1a", "us-east-1b"]).privateSubnets.map Subnet.cidrBlock
          = (List.range 2).map privateSubnetCidr
      ∧ pairwiseDisjointCidrs
          ((List.range 2).map publicSubnetCidr
            ++ (List.range 2).map privateSubnetCidr) = true
      ∧ ((List.range 2).map publicSubnetCidr
          ++ (List.range 2).map privateSubnetCidr).all
          (fun c => cidrContainsStr "10.0.0.0/16" c) = true) :=
  ⟨by decide, c3_subnet_layout 2 ["us-east-1a", "us-east-1b"] (by decide)⟩

/-- C4 counterexample: with only two availability zones reported and azCount
3, the build does not fail before producing a topology: it produces three
public subnets, the third with no availability zone assigned. -/
theorem c4_counterexample :
    (createVpc { cidrBlock := some "10.0.0.0/16", azCount := some 3 }
      ["us-east-1a", "us-east-1b"]).publicSubnets.map Subnet.availabilityZone
      = [some "us-east-1a", some "us-east-1b", none]
    ∧ (createVpc { cidrBlock := some "10.0.0.0/16", azCount := some 3 }
        ["us-east-1a", "us-east-1b"]).publicSubnets.length = 3 :=
  ⟨rfl, rfl⟩

/-- C4 amended: `createVpc` performs no availability-zone capacity check and
cannot fail: whenever azCount exceeds the number of zones the environment
reports available, it still produces the complete topology, leaving the
out-of-range subnets without an availability zone. -/
theorem c4_no_capacity_check (cidrBlock : String) (n : Nat)
    (azNames : List String) (h : azNames.length < n) :
    (createVpc { cidrBlock := some cidrBlock, azCount := some n }
        azNames).publicSubnets.length = n
    ∧ (createVpc { cidrBlock := some cidrBlock, azCount := some n }
        azNames).privateSubnets.length = n
    ∧ ∃ s ∈ (createVpc { cidrBlock := some cidrBlock, azCount := some n }
        azNames).publicSubnets, s.availabilityZone = none := by
  have hn0 : n ≠ 0 := by omega
  have hpub : (createVpc { cidrBlock := some cidrBlock, azCount := some n }
        azNames).publicSubnets
      = (List.range n).map (pubSubnetAt azNames) := by
    simp [createVpc, hn0]
  have hpri : (createVpc { cidrBlock := some cidrBlock, azCount := some n }
        azNames).privateSubnets
      = (List.range n).map (priSubnetAt azNames) := by
    simp [createVpc, hn0]
  refine ⟨by rw [hpub]; simp, by rw [hpri]; simp, ?_⟩
  refine ⟨pubSubnetAt azNames azNames.length, ?_, ?_⟩
  · rw [hpub]
    exact List.mem_map.mpr ⟨azNames.length, List.mem_range.mpr h, rfl⟩
  · show azNames.get? azNames.length = none
    exact List.get?_eq_none.mpr le_rfl

/-- C4 witness at azCount 3 with two available zones. -/
theorem c4_witness :
    (["us-east-1a", "us-east-1b"].length < 3)
    ∧ ((createVpc { cidrBlock := some "10.0.0.0/16", azCount := some 3 }
          ["us-east-1a", "us-east-1b"]).publicSubnets.length = 3
      ∧ (createVpc { cidrBlock := some "10.0.0.0/16", azCount := some 3 }
          ["us-east-1a", "us-east-1b"]).privateSubnets.length = 3
      ∧ ∃ s ∈ (createVpc { cidrBlock := some "10.0.0.0/16", azCount := some 3 }
          ["us-east-1a", "us-east-1b"]).publicSubnets,
          s.availabilityZone = none) :=
  ⟨by decide,
    c4_no_capacity_check "10.0.0.0/16" 3 ["us-east-1a", "us-east-1b"]
      (by decide)⟩

/-- The two branches of the `additionalPorts?.includes(80)` test collapse to
one conditional over `Option.getD`. -/
theorem selectedHealthCheckPort_getD (config : EcsServiceConfig) :
    selectedHealthCheckPort config =
      if (config.additionalPorts.getD []).contains 80 then 80
      else config.containerPort := by
  rcases hap : config.additionalPorts with _ | ps <;>
    simp [selectedHealthCheckPort, hap]

/-- C5 counterexample: for the port set {8443, 8080} (primary 8443,
additional 8080), the selected liveness port is 8443, not the plaintext
8080 — the tie-break tests specifically for port 80. -/
theorem c5_counterexample :
    selectedHealthCheckPort tieBreakExampleConfig = 8443
    ∧ (createEcsService "us-east-1"
        tieBreakExampleConfig).taskDefinition.containerDefs.map
        (fun cd => cd.healthCheck.command)
      = [["CMD-SHELL", "wget -qO- http://127.0.0.1:8443/health || exit 1"]]
    ∧ selectedHealthCheckPort tieBreakExampleConfig ≠ 8080 :=
  ⟨rfl, rfl, by decide⟩

/-- C5 amended: the generated liveness probe targets port 80 exactly when 80
appears among the additional ports, and the primary container port
otherwise; the probe command embeds the selected port. -/
theorem c5_health_check_port (region : String) (config : EcsServiceConfig)
    (cd : ContainerDefV2)
    (h : cd ∈ (createEcsService region config).taskDefinition.containerDefs) :
    cd.healthCheck.command =
      [ "CMD-SHELL", "wget -qO- http://127.0.0.1:"
          ++ toString (selectedHealthCheckPort config) ++ "/health || exit 1" ]
    ∧ ((config.additionalPorts.getD []).contains 80 = true →
        selectedHealthCheckPort config = 80)
    ∧ ((config.additionalPorts.getD []).contains 80 = false →
        selectedHealthCheckPort config = config.containerPort) := by
  have h' := List.mem_singleton.mp h
  subst h'
  refine ⟨rfl, ?_, ?_⟩
  · intro hc
    rw [selectedHealthCheckPort_getD, hc]
    simp
  · intro hc
    rw [selectedHealthCheckPort_getD, hc]
    simp

/-- C5 witness at the {8443, 8080} service. -/
theorem c5_witness :
    ({ name := "haproxy-service", image := PValue.lit "haproxy:latest",
       portMappings := [ { containerPort := 8443, hostPort := 8443,
                           protocol := "tcp" },
                         { containerPort := 8080, hostPort := 8080,
                           protocol := "tcp" } ],
       essential := true,
       healthCheck :=
         { command := ["CMD-SHELL",
             "wget -qO- http://127.0.0.1:8443/health || exit 1"],
           interval := 30, timeout := 10, retries := 5, startPeriod := 120 },
       logConfiguration := some
         { logDriver := "awslogs",
           awslogsGroup := PValue.attr "/ecs/haproxy-service" "name",
           awslogsRegion := "us-east-1",
           awslogsStream := "ecs" } } : ContainerDefV2) ∈
      (createEcsService "us-east-1"
        tieBreakExampleConfig).taskDefinition.containerDefs
    ∧ (({ name := "haproxy-service", image := PValue.lit "haproxy:latest",
          portMappings := [ { containerPort := 8443, hostPort := 8443,
                              protocol := "tcp" },
                            { containerPort := 8080, hostPort := 8080,
                              protocol := "tcp" } ],
          essential := true,
          healthCheck :=
            { command := ["CMD-SHELL",
                "wget -qO- http://127.0.0.1:8443/health || exit 1"],
              interval := 30, timeout := 10, retries := 5, startPeriod := 120 },
          logConfiguration := some
            { logDriver := "awslogs",
              awslogsGroup := PValue.attr "/ecs/haproxy-service" "name",
              awslogsRegion := "us-east-1",
              awslogsStream := "ecs" } } : ContainerDefV2).healthCheck.command =
        [ "CMD-SHELL", "wget -qO- http://127.0.0.1:"
            ++ toString (selectedHealthCheckPort tieBreakExampleConfig)
            ++ "/health || exit 1" ]
      ∧ ((tieBreakExampleConfig.additionalPorts.getD []).contains 80 = true →
          selectedHealthCheckPort tieBreakExampleConfig = 80)
      ∧ ((tieBreakExampleConfig.additionalPorts.getD []).contains 80 = false →
          selectedHealthCheckPort tieBreakExampleConfig
            = tieBreakExampleConfig.containerPort)) :=
  ⟨by decide, c5_health_check_port "us-east-1" tieBreakExampleConfig _
    (by decide)⟩

/-- C6 counterexample: an override configured as the empty string does not
resolve verbatim — the JavaScript truthiness test discards it and the
resolution falls back to the default registry reference. -/
theorem c6_counterexample :
    resolveImageUri (some "") (PValue.attr "react-app-haproxy" "repositoryUrl")
      ≠ PValue.lit ""
    ∧ resolveImageUri (some "")
        (PValue.attr "react-app-haproxy" "repositoryUrl")
      = PValue.interp2 (PValue.attr "react-app-haproxy" "repositoryUrl")
          (PValue.lit ":latest") :=
  ⟨by decide, rfl⟩

/-- C6 amended: a configured non-empty override resolves verbatim; a missing
override resolves to the registry URL interpolated with the default tag
":latest" (a configured empty string behaves like a missing override); and
`deploy` wires exactly these resolutions into the two tiers' container
images. -/
theorem c6_image_resolution (s : String) (hs : s ≠ "")
    (repo repositoryUrl : PValue) (region : String) (azNames : List String)
    (cfg : PulumiConfig) :
    resolveImageUri (some s) repo = PValue.lit s
    ∧ resolveImageUri none repositoryUrl
        = PValue.interp2 repositoryUrl (PValue.lit ":latest")
    ∧ (deploy region azNames cfg).haproxyService.taskDefinition.containerDefs.map
        (fun cd => cd.image)
      = [ resolveImageUri (cfg "haproxy-image-uri")
            (PValue.attr "react-app-haproxy" "repositoryUrl") ]
    ∧ (deploy region azNames cfg).nginxService.taskDefinition.containerDefs.map
        (fun cd => cd.image)
      = [ resolveImageUri (cfg "nginx-image-uri")
            (PValue.attr "react-app-nginx" "repositoryUrl") ] := by
  refine ⟨?_, rfl, rfl, rfl⟩
  simp [resolveImageUri, hs]

/-- C6 witness at override "haproxy:v1" and the example configuration. -/
theorem c6_witness :
    ("haproxy:v1" ≠ "")
    ∧ (resolveImageUri (some "haproxy:v1") (PValue.lit "repo")
        = PValue.lit "haproxy:v1"
      ∧ resolveImageUri none (PValue.attr "react-app-nginx" "repositoryUrl")
          = PValue.interp2 (PValue.attr "react-app-nginx" "repositoryUrl")
              (PValue.lit ":latest")
      ∧ (deploy "us-east-1" ["us-east-1a", "us-east-1b"]
          exampleConfig).haproxyService.taskDefinition.containerDefs.map
          (fun cd => cd.image)
        = [ resolveImageUri (exampleConfig "haproxy-image-uri")
              (PValue.attr "react-app-haproxy" "repositoryUrl") ]
      ∧ (deploy "us-east-1" ["us-east-1a", "us-east-1b"]
          exampleConfig).nginxService.taskDefinition.containerDefs.map
          (fun cd => cd.image)
        = [ resolveImageUri (exampleConfig "nginx-image-uri")
              (PValue.attr "react-app-nginx" "repositoryUrl") ]) :=
  ⟨by decide,
    c6_image_resolution "haproxy:v1" (by decide) (PValue.lit "repo")
      (PValue.attr "react-app-nginx" "repositoryUrl") "us-east-1"
      ["us-east-1a", "us-east-1b"] exampleConfig⟩

/-- C7 counterexample: the earlier `createEcsService` variant, invoked with
logging explicitly disabled, still emits a log driver — the awsfirelens
fallback — even though no log group exists, so the container specification
does not omit logging configuration. -/
theorem c7_counterexample :
    (createEcsServiceLegacy "us-east-1" loggingDisabledConfig).logGroup = none
    ∧ (createEcsServiceLegacy "us-east-1"
        loggingDisabledConfig).taskDefinition.containerDefs.map
        (fun cd => cd.logConfiguration) = [LogConfigV1.firelens] :=
  ⟨rfl, rfl⟩

/-- C7 amended: in the later `createEcsService` variant, logging disabled
means no log group and no logConfiguration key at all, while logging enabled
provisions exactly one log group with fixed 7-day retention, wired into a
single awslogs configuration; the earlier variant instead emits a fallback
awsfirelens log driver when logging is disabled. -/
theorem c7_logging (region : String) (config : EcsServiceConfig) :
    (config.enableLogging = some false →
      (createEcsService region config).logGroup = none
      ∧ (createEcsService region config).taskDefinition.containerDefs.map
          (fun cd => cd.logConfiguration) = [none]
      ∧ (createEcsServiceLegacy region config).taskDefinition.containerDefs.map
          (fun cd => cd.logConfiguration) = [LogConfigV1.firelens])
    ∧ (config.enableLogging ≠ some false → config.cloudwatchLogGroup = none →
      (createEcsService region config).logGroup
        = some { name := "/ecs/" ++ config.serviceName, retentionInDays := 7 }
      ∧ (createEcsService region config).taskDefinition.containerDefs.map
          (fun cd => cd.logConfiguration)
        = [ some { logDriver := "awslogs",
                   awslogsGroup :=
                     PValue.attr ("/ecs/" ++ config.serviceName) "name",
                   awslogsRegion := region, awslogsStream := "ecs" } ]) := by
  constructor
  · intro h
    have hlg : logGroupOf config = none := by simp [logGroupOf, h]
    refine ⟨?_, ?_, ?_⟩ <;>
      simp [createEcsService, createEcsServiceLegacy, hlg]
  · intro h hcw
    have hlg : logGroupOf config
        = some { name := "/ecs/" ++ config.serviceName,
                 retentionInDays := 7 } := by
      simp [logGroupOf, h, hcw]
    constructor <;> simp [createEcsService, hlg, LogGroup.nameOut]

/-- C7 witness: logging disabled on a concrete service, and logging enabled
by default on the {8443, 8080} service. -/
theorem c7_witness :
    ((loggingDisabledConfig.enableLogging = some false →
      (createEcsService "us-east-1" loggingDisabledConfig).logGroup = none
      ∧ (createEcsService "us-east-1"
          loggingDisabledConfig).taskDefinition.containerDefs.map
          (fun cd => cd.logConfiguration) = [none]
      ∧ (createEcsServiceLegacy "us-east-1"
          loggingDisabledConfig).taskDefinition.containerDefs.map
          (fun cd => cd.logConfiguration) = [LogConfigV1.firelens])
    ∧ (loggingDisabledConfig.enableLogging ≠ some false →
        loggingDisabledConfig.cloudwatchLogGroup = none →
      (createEcsService "us-east-1" loggingDisabledConfig).logGroup
        = some { name := "/ecs/" ++ loggingDisabledConfig.serviceName,
                 retentionInDays := 7 }
      ∧ (createEcsService "us-east-1"
          loggingDisabledConfig).taskDefinition.containerDefs.map
          (fun cd => cd.logConfiguration)
        = [ some { logDriver := "awslogs",
                   awslogsGroup :=
                     PValue.attr ("/ecs/" ++ loggingDisabledConfig.serviceName)
                       "name",
                   awslogsRegion := "us-east-1", awslogsStream := "ecs" } ]))
    ∧ ((tieBreakExampleConfig.enableLogging = some false →
      (createEcsService "us-east-1" tieBreakExampleConfig).logGroup = none
      ∧ (createEcsService "us-east-1"
          tieBreakExampleConfig).taskDefinition.containerDefs.map
          (fun cd => cd.logConfiguration) = [none]
      ∧ (createEcsServiceLegacy "us-east-1"
          tieBreakExampleConfig).taskDefinition.containerDefs.map
          (fun cd => cd.logConfiguration) = [LogConfigV1.firelens])
    ∧ (tieBreakExampleConfig.enableLogging ≠ some false →
        tieBreakExampleConfig.cloudwatchLogGroup = none →
      (createEcsService "us-east-1" tieBreakExampleConfig).logGroup
        = some { name := "/ecs/" ++ tieBreakExampleConfig.serviceName,
                 retentionInDays := 7 }
      ∧ (createEcsService "us-east-1"
          tieBreakExampleConfig).taskDefinition.containerDefs.map
          (fun cd => cd.logConfiguration)
        = [ some { logDriver := "awslogs",
                   awslogsGroup :=
                     PValue.attr ("/ecs/" ++ tieBreakExampleConfig.serviceName)
                       "name",
                   awslogsRegion := "us-east-1", awslogsStream := "ecs" } ])) :=
  ⟨c7_logging "us-east-1" loggingDisabledConfig,
    c7_logging "us-east-1" tieBreakExampleConfig⟩

/-- C8: the configuration serviceName="", vpcCidrBlock="bad", azCount=5
(with a non-empty environment) fails validation with exactly one aggregated
error whose message lists all three violations. -/
theorem c8_validation_aggregation :
    collectValidationErrors
      { serviceName := "", environmentName := "dev", awsRegion := "us-east-1",
        vpcCidrBlock := "bad", vpcAzCount := 5 } =
      [ "serviceName is required",
        "Invalid CIDR block: bad. Expected format: x.x.x.x/xx",
        "Invalid AZ count: 5. Must be between 1 and 4" ]
    ∧ validateConfig
      { serviceName := "", environmentName := "dev", awsRegion := "us-east-1",
        vpcCidrBlock := "bad", vpcAzCount := 5 } =
      .error ("Configuration validation failed:\n"
        ++ "  - serviceName is required\n"
        ++ "  - Invalid CIDR block: bad. Expected format: x.x.x.x/xx\n"
        ++ "  - Invalid AZ count: 5. Must be between 1 and 4") :=
  ⟨by decide, rfl⟩

/-- C9: the factory rejects every unregistered kind with the
`No service registered for stack` error, and for the registered kind
"react-service" returns the instance whose single capability is the
`ReactService.deploy` pipeline. -/
theorem c9_factory (name : String) (h : registeredServices name = none) :
    createService name = .error ("No service registered for stack " ++ name)
    ∧ createService "react-service" = .ok ServiceKind.reactService
    ∧ ServiceKind.deployOp ServiceKind.reactService = deploy := by
  refine ⟨?_, rfl, rfl⟩
  simp [createService, h]

/-- C9 witness at the unregistered kind "web-service". -/
theorem c9_witness :
    registeredServices "web-service" = none
    ∧ (createService "web-service"
        = .error ("No service registered for stack " ++ "web-service")
      ∧ createService "react-service" = .ok ServiceKind.reactService
      ∧ ServiceKind.deployOp ServiceKind.reactService = deploy) :=
  ⟨by decide, c9_factory "web-service" (by decide)⟩

/-- C10: `deploy` reads nothing from the stack configuration except the two
keys "haproxy-image-uri" and "nginx-image-uri" — two configurations agreeing
on those keys produce identical resource graphs and output bindings — and it
hard-codes cidrBlock 10.0.0.0/16, azCount 2, cpu 256, memory 512 and
desiredCount 2 for both tiers, never consulting the configured vpc, sizing
or logging values. -/
theorem c10_deploy_reads_only_image_uris (region : String)
    (azNames : List String) (cfg1 cfg2 : PulumiConfig)
    (h1 : cfg1 "haproxy-image-uri" = cfg2 "haproxy-image-uri")
    (h2 : cfg1 "nginx-image-uri" = cfg2 "nginx-image-uri") :
    deploy region azNames cfg1 = deploy region azNames cfg2
    ∧ (deploy region azNames cfg1).vpcResources
        = createVpc { cidrBlock := some "10.0.0.0/16", azCount := some 2 }
            azNames
    ∧ (deploy region azNames cfg1).haproxyService.service.desiredCount = 2
    ∧ (deploy region azNames cfg1).nginxService.service.desiredCount = 2
    ∧ (deploy region azNames cfg1).haproxyService.taskDefinition.cpu = "256"
    ∧ (deploy region azNames cfg1).haproxyService.taskDefinition.memory = "512"
    ∧ (deploy region azNames cfg1).nginxService.taskDefinition.cpu = "256"
    ∧ (deploy region azNames cfg1).nginxService.taskDefinition.memory
        = "512" := by
  refine ⟨?_, rfl, rfl, rfl,
    (by decide : toString (256 : Nat) = "256"),
    (by decide : toString (512 : Nat) = "512"),
    (by decide : toString (256 : Nat) = "256"),
    (by decide : toString (512 : Nat) = "512")⟩
  simp only [deploy, h1, h2]

/-- C10 witness: a configuration that sets vpc:azCount to 4 (and nothing
else) deploys identically to the empty configuration. -/
theorem c10_witness :
    ((fun k => if k = "vpc:azCount" then some "4" else none : PulumiConfig)
        "haproxy-image-uri"
      = (fun _ => none : PulumiConfig) "haproxy-image-uri")
    ∧ ((fun k => if k = "vpc:azCount" then some "4" else none : PulumiConfig)
        "nginx-image-uri"
      = (fun _ => none : PulumiConfig) "nginx-image-uri")
    ∧ (deploy "us-east-1" ["us-east-1a", "us-east-1b"]
        (fun k => if k = "vpc:azCount" then some "4" else none)
      = deploy "us-east-1" ["us-east-1a", "us-east-1b"] (fun _ => none)
    ∧ (deploy "us-east-1" ["us-east-1a", "us-east-1b"]
        (fun k => if k = "vpc:azCount" then some "4" else none)).vpcResources
        = createVpc { cidrBlock := some "10.0.0.0/16", azCount := some 2 }
            ["us-east-1a", "us-east-1b"]
    ∧ (deploy "us-east-1" ["us-east-1a", "us-east-1b"]
        (fun k => if k = "vpc:azCount" then some "4"
          else none)).haproxyService.service.desiredCount = 2
    ∧ (deploy "us-east-1" ["us-east-1a", "us-east-1b"]
        (fun k => if k = "vpc:azCount" then some "4"
          else none)).nginxService.service.desiredCount = 2
    ∧ (deploy "us-east-1" ["us-east-1a", "us-east-1b"]
        (fun k => if k = "vpc:azCount" then some "4"
          else none)).haproxyService.taskDefinition.cpu = "256"
    ∧ (deploy "us-east-1" ["us-east-1a", "us-east-1b"]
        (fun k => if k = "vpc:azCount" then some "4"
          else none)).haproxyService.taskDefinition.memory = "512"
    ∧ (deploy "us-east-1" ["us-east-1a", "us-east-1b"]
        (fun k => if k = "vpc:azCount" then some "4"
          else none)).nginxService.taskDefinition.cpu = "256"
    ∧ (deploy "us-east-1" ["us-east-1a", "us-east-1b"]
        (fun k => if k = "vpc:azCount" then some "4"
          else none)).nginxService.taskDefinition.memory = "512") :=
  ⟨rfl, rfl,
    c10_deploy_reads_only_image_uris "us-east-1" ["us-east-1a", "us-east-1b"]
      (fun k => if k = "vpc:azCount" then some "4" else none) (fun _ => none)
      rfl rfl⟩

end ReactExample
